import Mathlib

/-!
Shallow embedding of the Calgary property-assessment web application
(src/app.py) and verification of its specification.

Modelling conventions:
- Assessed values are modelled as integers (the source stores them as
  pandas numerics and always formats them with zero decimal places).
- Coordinates are exact rationals.
- A geopandas GeoDataFrame is a GeoFrame: a list of typed rows plus a
  frame-level coordinate reference system tag.
- The external CRS transformation of geopandas.to_crs is modelled by an
  arbitrary transform parameter threaded through the pipeline; per the
  library contract, to_crs with a target equal to the declared CRS is the
  identity on coordinates. A frame with no declared CRS is out of scope
  (the source never handles it; the spec records it as an open question).
- Flask responses are either an (body, status) error pair or a rendered
  page carrying the composed folium map and the display name.
- The module-level try/except data loading is modelled by loadData over
  the outcomes of the three fetches, each an Except value.
-/

namespace CalgaryApp

/-- Coordinate pairs are exact rationals in the embedding. -/
abbrev Coord := Rat × Rat

/-- A row geometry: its coordinate sequence. The CRS lives on the frame. -/
structure Geometry where
  coords : List Coord
deriving DecidableEq

/-- Arithmetic mean of a list of rationals (mean of an empty list is 0). -/
def ratMean (l : List Rat) : Rat := l.sum / l.length

/-- Centroid of a geometry, modelled as the coordinate mean (x, y). -/
def Geometry.centroid (g : Geometry) : Coord :=
  (ratMean (g.coords.map Prod.fst), ratMean (g.coords.map Prod.snd))

/-- A raw attribute value as it arrives from the GeoJSON source:
absent, a string, or already numeric. -/
inductive RawField
  | missing
  | str (s : String)
  | num (n : Int)
deriving DecidableEq

/-- Accumulate decimal digits; any non-digit character fails the
parse. -/
def parseDigitsAux : List Char → Nat → Option Nat
  | [], acc => some acc
  | c :: cs, acc =>
    if c.isDigit then parseDigitsAux cs (acc * 10 + (c.toNat - 48)) else none

/-- Model of the numeric parsing performed by pandas, restricted to
integer literals with an optional leading minus sign; anything else
fails. -/
def parseNumeric (s : String) : Option Int :=
  match s.data with
  | [] => none
  | '-' :: cs =>
    match cs with
    | [] => none
    | _ => (parseDigitsAux cs 0).map (fun v => -(v : Int))
  | cs => (parseDigitsAux cs 0).map (fun v => (v : Int))

/-- Model of pandas.to_numeric with errors=coerce, applied to one cell:
numbers pass through, strings are parsed, anything unparseable or absent
becomes the absent marker (NaN in the source, none here). -/
def to_numeric_coerce : RawField → Option Int
  | .missing => none
  | .num n => some n
  | .str s => parseNumeric s

/-- A preprocessed property record (one row of properties_gdf after the
startup normalization pass). -/
structure Property where
  address : String
  assessment_class_description : String
  comm_code : String
  comm_name : String
  assessed_value : Option Int
  re_assessed_value : Option Int
  nr_assessed_value : Option Int
  fl_assessed_value : Option Int
  formatted_assessed_values : String
  mod_date : String
  geometry : Geometry
deriving DecidableEq

/-- A raw property record as fetched, before numeric coercion of the four
assessed-value fields. -/
structure RawProperty where
  address : String
  assessment_class_description : String
  comm_code : String
  comm_name : String
  assessed_value : RawField
  re_assessed_value : RawField
  nr_assessed_value : RawField
  fl_assessed_value : RawField
  mod_date : String
  geometry : Geometry
deriving DecidableEq

/-- A community boundary record (one row of communities_gdf). The
timestamp fields are display strings; their astype(str) normalization is
identity in the embedding. -/
structure Boundary where
  name : String
  comm_code : String
  created_dt : String
  modified_dt : String
  geometry : Geometry
deriving DecidableEq

/-- A sector record (one row of sector_gdf). -/
structure Sector where
  sector : String
  geometry : Geometry
deriving DecidableEq

/-- A GeoDataFrame: rows plus the frame-level declared CRS. -/
structure GeoFrame (α : Type) where
  rows : List α
  crs : Option String
deriving DecidableEq

/-- Access to the geometry attribute of a row, for frame-level
reprojection. -/
class HasGeometry (α : Type) where
  geom : α → Geometry
  setGeom : α → Geometry → α

instance : HasGeometry Property :=
  ⟨Property.geometry, fun p g => { p with geometry := g }⟩

instance : HasGeometry Boundary :=
  ⟨Boundary.geometry, fun b g => { b with geometry := g }⟩

instance : HasGeometry Sector :=
  ⟨Sector.geometry, fun s g => { s with geometry := g }⟩

/-- An abstract coordinate transformation between reference systems,
standing in for the pyproj machinery: source CRS (possibly undeclared),
target CRS, and the pointwise coordinate map. -/
abbrev CrsTransform := Option String → String → Coord → Coord

/-- Model of GeoDataFrame.to_crs: per the library contract, when the
declared CRS already equals the target the transformation is the
identity; otherwise every row geometry is mapped through the transform
and the frame is retagged with the target CRS. -/
def GeoFrame.to_crs {α : Type} [HasGeometry α] (tr : CrsTransform)
    (gf : GeoFrame α) (tgt : String) : GeoFrame α :=
  if gf.crs = some tgt then gf
  else
    { rows := gf.rows.map (fun r =>
        HasGeometry.setGeom r
          { coords := (HasGeometry.geom r).coords.map (tr gf.crs tgt) }),
      crs := some tgt }

/-- Digits grouped in threes, least significant group first (input is the
reversed digit list). -/
def chunk3 : List Char → List (List Char)
  | [] => []
  | [a] => [[a]]
  | [a, b] => [[a, b]]
  | a :: b :: c :: rest => [a, b, c] :: chunk3 rest

/-- Insert thousands separators into a most-significant-first digit
list. -/
def commaSep (ds : List Char) : List Char :=
  List.intercalate [','] (((chunk3 ds.reverse).map List.reverse).reverse)

/-- Model of the Python format specifier with comma grouping and zero
decimal places, applied to an integer value. -/
def formatMoney (v : Int) : String :=
  (if v < 0 then "-" else "") ++ String.mk (commaSep (Nat.toDigits 10 v.natAbs))

/-- The helper format_assessed_value of src/app.py: build the list of
present value lines in source order and join with the HTML line break,
or return the literal fallback text when no value is present. -/
def format_assessed_value (row : Property) : String :=
  let fv0 : List String := []
  let fv1 := match row.assessed_value with
    | some v => fv0 ++ ["Assessed Value: $" ++ formatMoney v]
    | none => fv0
  let fv2 := match row.re_assessed_value with
    | some v => fv1 ++ ["Residential Assessed Value: $" ++ formatMoney v]
    | none => fv1
  let fv3 := match row.nr_assessed_value with
    | some v => fv2 ++ ["Non-Residential Assessed Value: $" ++ formatMoney v]
    | none => fv2
  let fv4 := match row.fl_assessed_value with
    | some v => fv3 ++ ["Farm Land Assessed Value: $" ++ formatMoney v]
    | none => fv3
  if fv4.isEmpty then "No assessed value information"
  else String.intercalate "<br>" fv4

/-- The per-property startup normalization (lines 40 to 43 of the
source): coerce the four assessed-value columns, then compute the
formatted summary from the coerced row. -/
def preprocessProperty (rp : RawProperty) : Property :=
  let base : Property :=
    { address := rp.address
      assessment_class_description := rp.assessment_class_description
      comm_code := rp.comm_code
      comm_name := rp.comm_name
      assessed_value := to_numeric_coerce rp.assessed_value
      re_assessed_value := to_numeric_coerce rp.re_assessed_value
      nr_assessed_value := to_numeric_coerce rp.nr_assessed_value
      fl_assessed_value := to_numeric_coerce rp.fl_assessed_value
      formatted_assessed_values := ""
      mod_date := rp.mod_date
      geometry := rp.geometry }
  { base with formatted_assessed_values := format_assessed_value base }

/-- The guarded sector reprojection of the source (lines 54 to 55): only
when a CRS is declared and differs from EPSG:4326 is to_crs invoked. -/
def sectorReprojectStep (tr : CrsTransform) (gf : GeoFrame Sector) :
    GeoFrame Sector :=
  match gf.crs with
  | some c => if c ≠ "EPSG:4326" then gf.to_crs tr "EPSG:4326" else gf
  | none => gf

/-- The process-wide state after the module-level load: the three dataset
references (none is the unavailable sentinel) and the display center. -/
structure AppState where
  properties_gdf : Option (GeoFrame Property)
  communities_gdf : Option (GeoFrame Boundary)
  sector_gdf : Option (GeoFrame Sector)
  calgary_center : Coord
deriving DecidableEq

/-- The fallback display center of line 65 of the source. -/
def fallback_center : Coord := ((510447 : Rat) / 10000, -((1140719 : Rat) / 10000))

/-- The module-level data loading (lines 34 to 65 of the source), over
the outcomes of the three remote fetches: if every fetch succeeds, the
datasets are normalized and the overview center is the mean of the
community centroids; if any step fails, the except branch leaves all
three references unavailable and the fallback center in place. -/
def loadData (tr : CrsTransform)
    (fetchProperties : Except String (GeoFrame RawProperty))
    (fetchCommunities : Except String (GeoFrame Boundary))
    (fetchSectors : Except String (GeoFrame Sector)) : AppState :=
  match fetchProperties, fetchCommunities, fetchSectors with
  | .ok praw, .ok communities_gdf, .ok sraw =>
    let properties_gdf : GeoFrame Property :=
      { rows := praw.rows.map preprocessProperty, crs := praw.crs }
    let sector_gdf := sectorReprojectStep tr sraw
    { properties_gdf := some properties_gdf
      communities_gdf := some communities_gdf
      sector_gdf := some sector_gdf
      calgary_center :=
        (ratMean (communities_gdf.rows.map (fun b => b.geometry.centroid.2)),
         ratMean (communities_gdf.rows.map (fun b => b.geometry.centroid.1))) }
  | _, _, _ =>
    { properties_gdf := none
      communities_gdf := none
      sector_gdf := none
      calgary_center := fallback_center }

/-- A layer of the composed folium map. -/
inductive MapLayer
  | boundaryLayer (data : GeoFrame Boundary) (name : String)
  | propertyLayer (data : GeoFrame Property) (name : String)
  | sectorLayer (data : GeoFrame Sector) (name : String)
  | control
deriving DecidableEq

/-- The composed folium map artifact: center, zoom, layers. -/
structure FoliumMap where
  location : Coord
  zoom_start : Nat
  layers : List MapLayer
deriving DecidableEq

/-- A response of a route handler: an error body with an HTTP status, or
a rendered page with the embedded map and the display name. -/
inductive Response
  | error (body : String) (status : Nat)
  | page (map : FoliumMap) (community_name : String)
deriving DecidableEq

/-- Boundary resolution (line 125 of the source): the rows whose name
attribute equals the selection. -/
def filterByName (gf : GeoFrame Boundary) (sel : String) : GeoFrame Boundary :=
  { rows := gf.rows.filter (fun b => b.name == sel), crs := gf.crs }

/-- Property filtering (lines 137 to 139 of the source): the rows whose
comm_code attribute equals the resolved code. -/
def filterPropertiesByCode (gf : GeoFrame Property) (code : String) :
    GeoFrame Property :=
  { rows := gf.rows.filter (fun p => p.comm_code == code), crs := gf.crs }

/-- The detail-mode map composition (lines 154 to 195 of the source):
reproject the filtered subset and the boundary to EPSG:4326, center on
the first boundary centroid (latitude first), re-check the subset CRS
defensively, and assemble the boundary layer, the property layer and the
layer control. -/
def detailMap (tr : CrsTransform) (properties_gdf : GeoFrame Property)
    (communities_gdf : GeoFrame Boundary) (sel : String) (b0 : Boundary)
    (p0 : Property) : FoliumMap :=
  let community_properties_gdf :=
    GeoFrame.to_crs tr (filterPropertiesByCode properties_gdf b0.comm_code)
      "EPSG:4326"
  let community_boundary :=
    GeoFrame.to_crs tr (filterByName communities_gdf sel) "EPSG:4326"
  let map_center : Coord :=
    match community_boundary.rows with
    | [] => (0, 0)
    | cb :: _ => (cb.geometry.centroid.2, cb.geometry.centroid.1)
  let community_properties_gdf2 :=
    match community_properties_gdf.crs with
    | some c =>
      if c ≠ "EPSG:4326" then
        GeoFrame.to_crs tr community_properties_gdf "EPSG:4326"
      else community_properties_gdf
    | none => community_properties_gdf
  { location := map_center
    zoom_start := 14
    layers :=
      [ MapLayer.boundaryLayer community_boundary
          ("Boundary: " ++ p0.comm_name),
        MapLayer.propertyLayer community_properties_gdf2
          (sel ++ " Properties"),
        MapLayer.control ] }

/-- The detail route show_map (lines 115 to 200 of the source), with the
process state threaded explicitly. The handler only reads the shared
state, so every branch returns it unchanged. -/
def show_map (tr : CrsTransform) (s : AppState)
    (selected_community : Option String) : Response × AppState :=
  match selected_community, s.properties_gdf, s.communities_gdf, s.sector_gdf with
  | some sel, some properties_gdf, some communities_gdf, some _sector_gdf =>
    if sel = "" then
      (Response.error "Error: Community not selected or data not loaded." 400, s)
    else
      match (filterByName communities_gdf sel).rows with
      | [] =>
        (Response.error ("No boundary data found for community: " ++ sel) 404, s)
      | b0 :: _ =>
        match (filterPropertiesByCode properties_gdf b0.comm_code).rows with
        | [] =>
          (Response.error
            ("No property data found for community: " ++ b0.name ++
              " (Filter Code: " ++ b0.comm_code ++ ").") 404, s)
        | p0 :: _ =>
          (Response.page (detailMap tr properties_gdf communities_gdf sel b0 p0)
            p0.comm_name, s)
  | _, _, _, _ =>
    (Response.error "Error: Community not selected or data not loaded." 400, s)

/-- The overview route calgary_overview (lines 70 to 100 of the source):
only the communities and sector datasets are checked for availability. -/
def calgary_overview (s : AppState) : Response × AppState :=
  match s.communities_gdf, s.sector_gdf with
  | some communities_gdf, some sector_gdf =>
    (Response.page
      { location := s.calgary_center
        zoom_start := 10
        layers :=
          [ MapLayer.boundaryLayer communities_gdf "Community Boundaries",
            MapLayer.sectorLayer sector_gdf "Community Sectors",
            MapLayer.control ] }
      "Calgary Overview", s)
  | _, _ => (Response.error "Error: Data not loaded." 500, s)

/-- Spec-side description of the assessed-value summary lines: the four
labelled components in their fixed order, keeping exactly the present
ones, each rendered as label, colon, dollar sign, grouped value. -/
def assessedLinesSpec (row : Property) : List String :=
  [("Assessed Value", row.assessed_value),
   ("Residential Assessed Value", row.re_assessed_value),
   ("Non-Residential Assessed Value", row.nr_assessed_value),
   ("Farm Land Assessed Value", row.fl_assessed_value)].filterMap
    (fun lv => lv.2.map (fun v => lv.1 ++ ": $" ++ formatMoney v))

/-! Concrete sample data, following the scenario of the specification:
a HILLHURST boundary with code HIL and five property records, three of
which carry code HIL; a coded boundary 01B whose properties carry a
longer descriptive community name; a boundary NOPROPS whose code matches
no property. -/

/-- A simple concrete geometry for the sample records. -/
def sampleGeom : Geometry := { coords := [((-114 : Rat), (51 : Rat))] }

/-- A sample property record with the given code and community name. -/
def mkProp (code nm : String) : Property :=
  { address := "123 EXAMPLE ST NW"
    assessment_class_description := "Residential"
    comm_code := code
    comm_name := nm
    assessed_value := some 500000
    re_assessed_value := none
    nr_assessed_value := none
    fl_assessed_value := none
    formatted_assessed_values := "Assessed Value: $500,000"
    mod_date := "2024-01-01"
    geometry := sampleGeom }

/-- A sample boundary record with the given display name and code. -/
def mkBoundary (nm code : String) : Boundary :=
  { name := nm, comm_code := code, created_dt := "2019", modified_dt := "2020",
    geometry := sampleGeom }

/-- Sample properties frame: three HIL records, two BOW records, one 01B
record. -/
def sampleProperties : GeoFrame Property :=
  { rows :=
      [ mkProp "HIL" "HILLHURST", mkProp "HIL" "HILLHURST",
        mkProp "HIL" "HILLHURST", mkProp "BOW" "BOWNESS",
        mkProp "BOW" "BOWNESS",
        mkProp "01B" "RESIDUAL WARD 1 - SUB AREA 1B" ],
    crs := some "EPSG:4326" }

/-- Sample boundaries frame. -/
def sampleCommunities : GeoFrame Boundary :=
  { rows :=
      [ mkBoundary "HILLHURST" "HIL", mkBoundary "BOWNESS" "BOW",
        mkBoundary "01B" "01B", mkBoundary "NOPROPS" "ZZZ" ],
    crs := some "EPSG:4326" }

/-- Sample sectors frame. -/
def sampleSectors : GeoFrame Sector :=
  { rows := [{ sector := "NORTHWEST", geometry := sampleGeom }],
    crs := some "EPSG:4326" }

/-- A fully loaded process state over the sample data. -/
def sampleState : AppState :=
  { properties_gdf := some sampleProperties
    communities_gdf := some sampleCommunities
    sector_gdf := some sampleSectors
    calgary_center := ((51 : Rat), (-114 : Rat)) }

/-- The degraded process state after a failed load. -/
def unavailState : AppState :=
  { properties_gdf := none, communities_gdf := none, sector_gdf := none,
    calgary_center := fallback_center }

/-- The identity coordinate transform, a concrete CrsTransform for
witnesses. -/
def idTr : CrsTransform := fun _ _ p => p

/-- A raw property record whose overall value cell is an unparseable
string. -/
def rpSample : RawProperty :=
  { address := "123 EXAMPLE ST NW"
    assessment_class_description := "Residential"
    comm_code := "HIL"
    comm_name := "HILLHURST"
    assessed_value := RawField.str "notanumber"
    re_assessed_value := RawField.missing
    nr_assessed_value := RawField.num 0
    fl_assessed_value := RawField.str "750000"
    mod_date := "2024-01-01"
    geometry := sampleGeom }

/-- Whether a fetch outcome is a failure. -/
def exceptFailed {α : Type} : Except String α → Bool
  | .ok _ => false
  | .error _ => true

/-- Branch characterization: a request with no selection returns the
combined 400 error, whatever the state. -/
theorem show_map_missing_selection (tr : CrsTransform) (s : AppState) :
    show_map tr s none =
      (Response.error "Error: Community not selected or data not loaded." 400, s) := by
  obtain ⟨sp, sc, ss, cen⟩ := s
  cases sp <;> cases sc <;> cases ss <;> rfl

/-- Branch characterization: with any dataset unavailable the request
returns the combined 400 error, whatever the selection. -/
theorem show_map_unloaded (tr : CrsTransform) (s : AppState)
    (h : s.properties_gdf = none ∨ s.communities_gdf = none ∨ s.sector_gdf = none)
    (sel : Option String) :
    show_map tr s sel =
      (Response.error "Error: Community not selected or data not loaded." 400, s) := by
  obtain ⟨sp, sc, ss, cen⟩ := s
  rcases sel with _ | sel
  · cases sp <;> cases sc <;> cases ss <;> rfl
  · rcases h with h | h | h
    · obtain rfl : sp = none := h
      cases sc <;> cases ss <;> rfl
    · obtain rfl : sc = none := h
      cases sp <;> cases ss <;> rfl
    · obtain rfl : ss = none := h
      cases sp <;> cases sc <;> rfl

/-- Branch characterization: loaded state, nonempty selection, no
matching boundary row. -/
theorem show_map_boundary_not_found (tr : CrsTransform) (s : AppState)
    (sel : String) (props : GeoFrame Property) (comms : GeoFrame Boundary)
    (sects : GeoFrame Sector) (hp : s.properties_gdf = some props)
    (hc : s.communities_gdf = some comms) (hs : s.sector_gdf = some sects)
    (hsel : sel ≠ "") (hb : (filterByName comms sel).rows = []) :
    show_map tr s (some sel) =
      (Response.error ("No boundary data found for community: " ++ sel) 404, s) := by
  obtain ⟨sp, sc, ss, cen⟩ := s
  obtain rfl : sp = some props := hp
  obtain rfl : sc = some comms := hc
  obtain rfl : ss = some sects := hs
  simp only [show_map, hb]
  simp [hsel]

/-- Branch characterization: loaded state, boundary matched, empty
property subset. -/
theorem show_map_no_properties (tr : CrsTransform) (s : AppState)
    (sel : String) (props : GeoFrame Property) (comms : GeoFrame Boundary)
    (sects : GeoFrame Sector) (hp : s.properties_gdf = some props)
    (hc : s.communities_gdf = some comms) (hs : s.sector_gdf = some sects)
    (hsel : sel ≠ "") (b0 : Boundary) (bs : List Boundary)
    (hb : (filterByName comms sel).rows = b0 :: bs)
    (hfp : (filterPropertiesByCode props b0.comm_code).rows = []) :
    show_map tr s (some sel) =
      (Response.error
        ("No property data found for community: " ++ b0.name ++
          " (Filter Code: " ++ b0.comm_code ++ ").") 404, s) := by
  obtain ⟨sp, sc, ss, cen⟩ := s
  obtain rfl : sp = some props := hp
  obtain rfl : sc = some comms := hc
  obtain rfl : ss = some sects := hs
  simp only [show_map, hb, hfp]
  simp [hsel]

/-- Branch characterization: loaded state, boundary matched, nonempty
property subset: the composed detail page with the first property row
supplying the display name. -/
theorem show_map_success (tr : CrsTransform) (s : AppState)
    (sel : String) (props : GeoFrame Property) (comms : GeoFrame Boundary)
    (sects : GeoFrame Sector) (hp : s.properties_gdf = some props)
    (hc : s.communities_gdf = some comms) (hs : s.sector_gdf = some sects)
    (hsel : sel ≠ "") (b0 : Boundary) (bs : List Boundary)
    (hb : (filterByName comms sel).rows = b0 :: bs)
    (p0 : Property) (ps : List Property)
    (hfp : (filterPropertiesByCode props b0.comm_code).rows = p0 :: ps) :
    show_map tr s (some sel) =
      (Response.page (detailMap tr props comms sel b0 p0) p0.comm_name, s) := by
  obtain ⟨sp, sc, ss, cen⟩ := s
  obtain rfl : sp = some props := hp
  obtain rfl : sc = some comms := hc
  obtain rfl : ss = some sects := hs
  simp only [show_map, hb, hfp]
  simp [hsel]

/-- The two 404 bodies of show_map start with different literal text, so
the no-properties response can never coincide with the not-found
response, whatever the interpolated names are. -/
theorem noProperty_msg_ne_noBoundary_msg (a b c : String) :
    "No property data found for community: " ++ a ++ " (Filter Code: " ++
      b ++ ")." ≠
    "No boundary data found for community: " ++ c := by
  intro h
  have h2 := congrArg String.data h
  simp only [String.data_append, List.cons_append, List.append_assoc] at h2
  injection h2 with h2a h2
  injection h2 with h2b h2
  injection h2 with h2c h2
  injection h2 with h2d h2
  exact absurd h2d (by decide)

/-- C1: a property record belongs to the detail-mode property subset for
a resolved community code exactly when its comm_code attribute equals
that code, by case-sensitive string equality; nothing partial or
case-insensitive is admitted. -/
theorem c1_property_filter_exact (props : GeoFrame Property) (code : String)
    (p : Property) :
    p ∈ (filterPropertiesByCode props code).rows ↔
      p ∈ props.rows ∧ p.comm_code = code := by
  simp [filterPropertiesByCode, List.mem_filter]

/-- C2: the formatted assessed-value summary is exactly the present
components among the four, in the fixed order overall, residential,
non-residential, farm-land, each line being the label, a colon, a dollar
sign and the comma-grouped value, joined by the line break; when all
four are absent it is the literal fallback text. The last conjunct
checks the concrete rendering of the specification scenario. -/
theorem c2_formatted_summary (row : Property) :
    format_assessed_value row =
      (if assessedLinesSpec row = [] then "No assessed value information"
       else String.intercalate "<br>" (assessedLinesSpec row)) ∧
    format_assessed_value
      { row with assessed_value := none, re_assessed_value := none,
                 nr_assessed_value := none, fl_assessed_value := none } =
      "No assessed value information" ∧
    format_assessed_value
      { row with assessed_value := some 500000, re_assessed_value := none,
                 nr_assessed_value := none, fl_assessed_value := none } =
      "Assessed Value: $500,000" := by
  obtain ⟨ad, ac, cc, cn, a, r, n, f, fa, md, g⟩ := row
  refine ⟨?_, ?_, ?_⟩
  · cases a <;> cases r <;> cases n <;> cases f <;>
      simp [format_assessed_value, assessedLinesSpec, String.intercalate]
  · rfl
  · simp only [format_assessed_value]
    decide

/-- C3: whenever the detail request succeeds, the display name passed to
the template is the comm_name attribute of the first record of the
filtered property subset; in particular it is never the boundary
display name when the two differ. -/
theorem c3_detail_display_name (tr : CrsTransform) (s : AppState)
    (sel : String) (props : GeoFrame Property) (comms : GeoFrame Boundary)
    (sects : GeoFrame Sector) (hp : s.properties_gdf = some props)
    (hc : s.communities_gdf = some comms) (hs : s.sector_gdf = some sects)
    (hsel : sel ≠ "") (b0 : Boundary) (bs : List Boundary)
    (hb : (filterByName comms sel).rows = b0 :: bs)
    (p0 : Property) (ps : List Property)
    (hfp : (filterPropertiesByCode props b0.comm_code).rows = p0 :: ps) :
    (show_map tr s (some sel)).1 =
      Response.page (detailMap tr props comms sel b0 p0) p0.comm_name ∧
    (p0.comm_name ≠ b0.name →
      ∀ m, (show_map tr s (some sel)).1 ≠ Response.page m b0.name) := by
  have h := show_map_success tr s sel props comms sects hp hc hs hsel
    b0 bs hb p0 ps hfp
  constructor
  · rw [h]
  · intro hne m hcontr
    rw [h] at hcontr
    injection hcontr with h1 h2
    exact hne h2

/-- C3 witness: selecting the coded community 01B yields the page whose
display name is the descriptive comm_name of the first matching property
record, not the short boundary name. -/
theorem c3_witness :
    (show_map idTr sampleState (some "01B")).1 =
      Response.page
        (detailMap idTr sampleProperties sampleCommunities "01B"
          (mkBoundary "01B" "01B")
          (mkProp "01B" "RESIDUAL WARD 1 - SUB AREA 1B"))
        (mkProp "01B" "RESIDUAL WARD 1 - SUB AREA 1B").comm_name :=
  (c3_detail_display_name idTr sampleState "01B" sampleProperties
    sampleCommunities sampleSectors rfl rfl rfl (by decide)
    (mkBoundary "01B" "01B") [] rfl
    (mkProp "01B" "RESIDUAL WARD 1 - SUB AREA 1B") [] rfl).1

/-- C4: community resolution keeps exactly the boundary rows whose
display name equals the selection, by case-sensitive string equality,
and when no row matches the request ends in the not-found 404 error and
never in a successful page. -/
theorem c4_resolution_exact_and_not_found (comms : GeoFrame Boundary)
    (sel : String) :
    (∀ b, b ∈ (filterByName comms sel).rows ↔ b ∈ comms.rows ∧ b.name = sel) ∧
    (∀ tr s props sects, s.properties_gdf = some props →
      s.communities_gdf = some comms → s.sector_gdf = some sects → sel ≠ "" →
      (filterByName comms sel).rows = [] →
      (show_map tr s (some sel)).1 =
        Response.error ("No boundary data found for community: " ++ sel) 404 ∧
      ∀ m nm, (show_map tr s (some sel)).1 ≠ Response.page m nm) := by
  constructor
  · intro b
    simp [filterByName, List.mem_filter]
  · intro tr s props sects hp hc hs hsel hb
    have h := show_map_boundary_not_found tr s sel props comms sects hp hc hs
      hsel hb
    constructor
    · rw [h]
    · intro m nm hx
      rw [h] at hx
      exact Response.noConfusion hx

/-- C4 witness: selecting a name absent from the boundary dataset yields
the not-found 404 result. -/
theorem c4_witness :
    (show_map idTr sampleState (some "NOWHERE")).1 =
      Response.error ("No boundary data found for community: " ++ "NOWHERE")
        404 :=
  ((c4_resolution_exact_and_not_found sampleCommunities "NOWHERE").2
    idTr sampleState sampleProperties sampleSectors rfl rfl rfl
    (by decide) rfl).1

/-- C5: when a boundary matches the selection but its code matches no
property record, the request ends in the no-properties 404 error, whose
body can never coincide with a community-not-found body, whatever the
interpolated names are. -/
theorem c5_no_properties_distinct (tr : CrsTransform) (s : AppState)
    (sel : String) (props : GeoFrame Property) (comms : GeoFrame Boundary)
    (sects : GeoFrame Sector) (hp : s.properties_gdf = some props)
    (hc : s.communities_gdf = some comms) (hs : s.sector_gdf = some sects)
    (hsel : sel ≠ "") (b0 : Boundary) (bs : List Boundary)
    (hb : (filterByName comms sel).rows = b0 :: bs)
    (hfp : (filterPropertiesByCode props b0.comm_code).rows = []) :
    (show_map tr s (some sel)).1 =
      Response.error
        ("No property data found for community: " ++ b0.name ++
          " (Filter Code: " ++ b0.comm_code ++ ").") 404 ∧
    ∀ sel2 : String, (show_map tr s (some sel)).1 ≠
      Response.error ("No boundary data found for community: " ++ sel2) 404 := by
  have h := show_map_no_properties tr s sel props comms sects hp hc hs hsel
    b0 bs hb hfp
  constructor
  · rw [h]
  · intro sel2 hx
    rw [h] at hx
    injection hx with h1 h2
    exact noProperty_msg_ne_noBoundary_msg b0.name b0.comm_code sel2 h1

/-- C5 witness: the NOPROPS boundary matches but its code ZZZ matches no
property record, producing the distinct no-properties 404 body. -/
theorem c5_witness :
    (show_map idTr sampleState (some "NOPROPS")).1 =
      Response.error
        ("No property data found for community: " ++
          (mkBoundary "NOPROPS" "ZZZ").name ++ " (Filter Code: " ++
          (mkBoundary "NOPROPS" "ZZZ").comm_code ++ ").") 404 :=
  (c5_no_properties_distinct idTr sampleState "NOPROPS" sampleProperties
    sampleCommunities sampleSectors rfl rfl rfl (by decide)
    (mkBoundary "NOPROPS" "ZZZ") [] rfl rfl).1

/-- C6: a raw assessed-value cell that fails numeric coercion becomes the
absent marker, never zero, and the preprocessed record is then identical
to one whose cell was wholly absent, summary included; a parsed zero
stays present as the value zero, distinguishable from absent; and a load
whose fetches succeed always yields a preprocessed properties dataset,
with no per-field error propagated. -/
theorem c6_coercion_failures_absorbed (rp : RawProperty) :
    (to_numeric_coerce rp.assessed_value = none →
      preprocessProperty rp =
        preprocessProperty { rp with assessed_value := RawField.missing }) ∧
    (to_numeric_coerce rp.re_assessed_value = none →
      preprocessProperty rp =
        preprocessProperty { rp with re_assessed_value := RawField.missing }) ∧
    (to_numeric_coerce rp.nr_assessed_value = none →
      preprocessProperty rp =
        preprocessProperty { rp with nr_assessed_value := RawField.missing }) ∧
    (to_numeric_coerce rp.fl_assessed_value = none →
      preprocessProperty rp =
        preprocessProperty { rp with fl_assessed_value := RawField.missing }) ∧
    to_numeric_coerce (RawField.num 0) = some 0 ∧
    (preprocessProperty { rp with assessed_value := RawField.num 0 }).assessed_value
      = some 0 ∧
    (preprocessProperty { rp with assessed_value := RawField.missing }).assessed_value
      = none ∧
    (∀ tr praw craw sraw,
      (loadData tr (Except.ok praw) (Except.ok craw)
        (Except.ok sraw)).properties_gdf =
        some { rows := praw.rows.map preprocessProperty, crs := praw.crs }) := by
  obtain ⟨ad, ac, cc, cn, a, r, n, f, md, g⟩ := rp
  have hm : to_numeric_coerce RawField.missing = none := rfl
  refine ⟨?_, ?_, ?_, ?_, rfl, ?_, ?_, ?_⟩
  · intro h
    simp only at h
    simp [preprocessProperty, h, hm]
  · intro h
    simp only at h
    simp [preprocessProperty, h, hm]
  · intro h
    simp only at h
    simp [preprocessProperty, h, hm]
  · intro h
    simp only at h
    simp [preprocessProperty, h, hm]
  · simp [preprocessProperty, to_numeric_coerce]
  · simp [preprocessProperty, hm]
  · intro tr praw craw sraw
    rfl

/-- C6 witness: an unparseable string cell is preprocessed exactly like a
wholly absent cell. -/
theorem c6_witness :
    preprocessProperty rpSample =
      preprocessProperty { rpSample with assessed_value := RawField.missing } :=
  (c6_coercion_failures_absorbed rpSample).1 (by decide)

/-- C7: if any fetch of the startup load fails, the resulting state has
all three dataset references set to the unavailable sentinel and the
fallback display center, with no partial availability. -/
theorem c7_load_failure_all_unavailable (tr : CrsTransform)
    (fp : Except String (GeoFrame RawProperty))
    (fc : Except String (GeoFrame Boundary))
    (fs : Except String (GeoFrame Sector))
    (h : exceptFailed fp = true ∨ exceptFailed fc = true ∨
      exceptFailed fs = true) :
    loadData tr fp fc fs =
      { properties_gdf := none, communities_gdf := none, sector_gdf := none,
        calgary_center := fallback_center } := by
  cases fp <;> cases fc <;> cases fs <;>
    first
      | rfl
      | simp [exceptFailed] at h

/-- C7 witness: a failing properties fetch yields the fully degraded
state. -/
theorem c7_witness :
    loadData idTr (Except.error "network failure")
      (Except.ok sampleCommunities) (Except.ok sampleSectors) =
      { properties_gdf := none, communities_gdf := none, sector_gdf := none,
        calgary_center := fallback_center } :=
  c7_load_failure_all_unavailable idTr (Except.error "network failure")
    (Except.ok sampleCommunities) (Except.ok sampleSectors) (Or.inl rfl)

/-- C8 counterexample: the claim that the missing-selection condition is
reported distinctly from the data-unavailable condition fails: on a
loaded state with no selection and on an unavailable state with a valid
selection, show_map returns the very same response. -/
theorem c8_counterexample :
    (show_map idTr sampleState none).1 =
      (show_map idTr unavailState (some "HILLHURST")).1 := rfl

/-- C8 amended: a missing selection is reported as a client 400 error,
distinct from the community-not-found 404 condition, but identical to
the data-unavailable response of the detail route. -/
theorem c8_missing_selection_amended (tr : CrsTransform) (s u : AppState)
    (hu : u.properties_gdf = none) :
    (show_map tr s none).1 =
      Response.error "Error: Community not selected or data not loaded." 400 ∧
    (∀ sel, (show_map tr u (some sel)).1 = (show_map tr s none).1) ∧
    (∀ nm, (show_map tr s none).1 ≠
      Response.error ("No boundary data found for community: " ++ nm) 404) := by
  have hmiss := show_map_missing_selection tr s
  have hun : ∀ sel, show_map tr u (some sel) =
      (Response.error "Error: Community not selected or data not loaded." 400,
        u) :=
    fun sel => show_map_unloaded tr u (Or.inl hu) (some sel)
  refine ⟨by rw [hmiss], fun sel => by rw [hmiss, hun sel], ?_⟩
  intro nm hx
  rw [hmiss] at hx
  injection hx with h1 h2
  exact absurd h2 (by decide)

/-- C8 amended witness: the missing-selection response on the sample
state is the combined 400 error. -/
theorem c8_witness :
    (show_map idTr sampleState none).1 =
      Response.error "Error: Community not selected or data not loaded." 400 :=
  (c8_missing_selection_amended idTr sampleState unavailState rfl).1

/-- C9: reprojecting a geometry collection that is already in EPSG:4326
leaves it unchanged, both for the bare reprojection step and for the
guarded sector reprojection of the startup load. -/
theorem c9_reprojection_noop {α : Type} [HasGeometry α] (tr : CrsTransform)
    (gf : GeoFrame α) (h : gf.crs = some "EPSG:4326") :
    GeoFrame.to_crs tr gf "EPSG:4326" = gf ∧
    (∀ sf : GeoFrame Sector, sf.crs = some "EPSG:4326" →
      sectorReprojectStep tr sf = sf) := by
  constructor
  · simp [GeoFrame.to_crs, h]
  · intro sf hsf
    simp [sectorReprojectStep, hsf]

/-- C9 witness: the sample sector frame, already in EPSG:4326, is
unchanged by reprojection. -/
theorem c9_witness :
    GeoFrame.to_crs idTr sampleSectors "EPSG:4326" = sampleSectors :=
  (c9_reprojection_noop idTr sampleSectors rfl).1

/-- C10: serving a detail or overview request leaves the process-wide
state, hence the three shared datasets, exactly as it was. -/
theorem c10_requests_preserve_state (tr : CrsTransform) (s : AppState)
    (sel : Option String) :
    (show_map tr s sel).2 = s ∧ (calgary_overview s).2 = s := by
  obtain ⟨sp, sc, ss, cen⟩ := s
  constructor
  · rcases sel with _ | sel
    · cases sp <;> cases sc <;> cases ss <;> rfl
    · rcases sp with _ | props
      · cases sc <;> cases ss <;> rfl
      · rcases sc with _ | comms
        · cases ss <;> rfl
        · rcases ss with _ | sects
          · rfl
          · by_cases h : sel = ""
            · simp [show_map, h]
            · simp only [show_map]
              rcases hb : (filterByName comms sel).rows with _ | ⟨b0, bs⟩
              · simp [h, hb]
              · rcases hfp :
                  (filterPropertiesByCode props b0.comm_code).rows with
                  _ | ⟨p0, ps⟩ <;> simp [h, hb, hfp]
  · cases sc <;> cases ss <;> rfl

end CalgaryApp
